import Mathlib

/-!
Verification development for the embedded OAuth 2.0 authorization server of
morphik-mcp (`src/index.ts`): `MorphikOAuthClientsStore` and
`MorphikOAuthProvider` (authorize, exchangeAuthorizationCode,
exchangeRefreshToken, verifyAccessToken).

Modelling conventions:
- JavaScript `Map<string, V>` is modelled as an association list
  `List (String × V)` with `mapLookup` / `mapInsert` / `mapErase`
  reproducing `Map.get` / `Map.set` / `Map.delete` lookup semantics.
- Nondeterministic inputs of the source (`randomUUID()`, `Date.now()`) are
  passed as explicit parameters (`freshCode`, `freshAccessToken`,
  `freshRefreshToken`, `nowMs`, `nowSec`); UUID uniqueness becomes a
  freshness hypothesis where a claim needs it.
- `throw new Error(msg)` is modelled as `Except.error msg`.
- Times are in milliseconds (the unit of `Date.now()`), except
  `client_id_issued_at` and the `expiresAt` field of `AuthInfo`, which the
  source converts to seconds with `Math.floor(x / 1000)`.
- The module-level constant `MORPHIK_API_BASE` (set from command-line
  arguments at startup) is passed as the parameter `apiBase`.
-/

/-- Lookup in an association list, the semantics of JavaScript `Map.get`. -/
def mapLookup {α : Type} (k : String) : List (String × α) → Option α
  | [] => none
  | (k2, v) :: m => if k2 = k then some v else mapLookup k m

/-- Removal of a key, the semantics of JavaScript `Map.delete`. -/
def mapErase {α : Type} (k : String) (m : List (String × α)) : List (String × α) :=
  m.filter (fun p => p.1 ≠ k)

/-- Insertion (overwriting any previous binding), the semantics of
JavaScript `Map.set`. -/
def mapInsert {α : Type} (k : String) (v : α) (m : List (String × α)) :
    List (String × α) :=
  (k, v) :: mapErase k m

/-- Client record (`OAuthClientInformationFull` of the MCP SDK): the fields
this code reads or writes (`client_id`, `client_id_issued_at`), with all
remaining registration metadata kept opaque in `metadata`. -/
structure OAuthClientInformationFull where
  client_id : String
  client_id_issued_at : Option Nat
  metadata : List (String × String)
deriving Repr, DecidableEq

/-- Authorization parameters (`AuthorizationParams` of the MCP SDK): the
fields `authorize` and `exchangeAuthorizationCode` read. The source treats
`codeChallenge` as possibly absent (`codeChallenge?: string`, `|| ''`). -/
structure AuthorizationParams where
  redirectUri : String
  state : Option String
  scopes : Option (List String)
  codeChallenge : Option String
deriving Repr, DecidableEq

/-- Value stored in `MorphikOAuthProvider.codes`:
`{ client, params, codeChallenge: params.codeChallenge }`. -/
structure CodeData where
  client : OAuthClientInformationFull
  params : AuthorizationParams
  codeChallenge : Option String
deriving Repr, DecidableEq

/-- Value stored in `MorphikOAuthProvider.tokens`. -/
structure TokenData where
  clientId : String
  scopes : List String
  userId : String
  morphikUri : String
  expiresAt : Nat
deriving Repr, DecidableEq

/-- Token response (`OAuthTokens` of the MCP SDK) as built by
`exchangeAuthorizationCode`. -/
structure OAuthTokens where
  access_token : String
  token_type : String
  expires_in : Nat
  refresh_token : Option String
  scope : Option String
deriving Repr, DecidableEq

/-- Principal returned by `verifyAccessToken` (`AuthInfo` of the MCP SDK,
with the `extra` object flattened into `userId` and `morphikUri`). -/
structure AuthInfo where
  token : String
  clientId : String
  scopes : List String
  expiresAt : Nat
  userId : String
  morphikUri : String
deriving Repr, DecidableEq

/-- The redirect URL built by `authorize`:
`new URL(/oauth/authorize, MORPHIK_API_BASE)` plus `searchParams.set`
calls, kept as an ordered key-value list. -/
structure MorphikAuthUrl where
  base : String
  path : String
  searchParams : List (String × String)
deriving Repr, DecidableEq

/-- Combined mutable state of `MorphikOAuthClientsStore` (the `clients`
map) and `MorphikOAuthProvider` (the `codes` and `tokens` maps). -/
structure MorphikOAuthProvider where
  clients : List (String × OAuthClientInformationFull)
  codes : List (String × CodeData)
  tokens : List (String × TokenData)
deriving Repr, DecidableEq

/-- Embedding of `MorphikOAuthClientsStore.getClient`: pure lookup. -/
def getClient (s : MorphikOAuthProvider) (clientId : String) :
    Option OAuthClientInformationFull :=
  mapLookup clientId s.clients

/-- Embedding of `MorphikOAuthClientsStore.registerClient`: builds
`{ ...clientMetadata, client_id: randomUUID(), client_id_issued_at:
Math.floor(Date.now() / 1000) }`, stores it, and returns it.
`freshId` stands for `randomUUID()` and `nowSec` for the seconds value. -/
def registerClient (s : MorphikOAuthProvider)
    (clientMetadata : OAuthClientInformationFull) (freshId : String)
    (nowSec : Nat) : OAuthClientInformationFull × MorphikOAuthProvider :=
  let client : OAuthClientInformationFull :=
    { clientMetadata with client_id := freshId, client_id_issued_at := some nowSec }
  (client, { s with clients := mapInsert freshId client s.clients })

/-- Embedding of `MorphikOAuthProvider.authorize`: stores the fresh code
with `{ client, params, codeChallenge: params.codeChallenge }` and builds
the Morphik authorization URL with query parameters exactly as the source
sets them (`x || ''` becomes `Option.getD x ""`; the method is the literal
string S256). Returns the redirect URL together with the new state. -/
def authorize (s : MorphikOAuthProvider) (client : OAuthClientInformationFull)
    (params : AuthorizationParams) (freshCode : String) (apiBase : String) :
    MorphikAuthUrl × MorphikOAuthProvider :=
  let codes := mapInsert freshCode
    { client := client, params := params, codeChallenge := params.codeChallenge }
    s.codes
  let url : MorphikAuthUrl :=
    { base := apiBase
      path := "/oauth/authorize"
      searchParams :=
        [("client_id", client.client_id),
         ("redirect_uri", params.redirectUri),
         ("state", params.state.getD ""),
         ("scope", (params.scopes.map (String.intercalate " ")).getD ""),
         ("code_challenge", params.codeChallenge.getD ""),
         ("code_challenge_method", "S256"),
         ("mcp_code", freshCode)] }
  (url, { s with codes := codes })

/-- Embedding of `MorphikOAuthProvider.challengeForAuthorizationCode`. -/
def challengeForAuthorizationCode (s : MorphikOAuthProvider)
    (client : OAuthClientInformationFull) (authorizationCode : String) :
    Except String String :=
  match mapLookup authorizationCode s.codes with
  | none => Except.error "Invalid authorization code"
  | some codeData =>
    if codeData.client.client_id ≠ client.client_id then
      Except.error "Invalid authorization code"
    else
      Except.ok (codeData.codeChallenge.getD "")

/-- Embedding of `MorphikOAuthProvider.exchangeAuthorizationCode`. The
source looks up the code, rejects a missing code or a client mismatch,
performs no PKCE comparison (the branch on
`codeData.codeChallenge && codeVerifier` has an empty body marked TODO),
mints tokens with `expiresAt = Date.now() + 3600 * 1000`, stores the
access-token record, deletes the code, and returns the token response.
`freshAccessToken` and `freshRefreshToken` stand for the two
`randomUUID()` calls and `nowMs` for `Date.now()`. -/
def exchangeAuthorizationCode (s : MorphikOAuthProvider)
    (client : OAuthClientInformationFull) (authorizationCode : String)
    (codeVerifier : Option String) (freshAccessToken freshRefreshToken : String)
    (nowMs : Nat) (apiBase : String) :
    Except String (OAuthTokens × MorphikOAuthProvider) :=
  match mapLookup authorizationCode s.codes with
  | none => Except.error "Invalid authorization code"
  | some codeData =>
    if codeData.client.client_id ≠ client.client_id then
      Except.error "Invalid authorization code"
    else
      let expiresAt := nowMs + 3600 * 1000
      let tokens := mapInsert freshAccessToken
        { clientId := client.client_id
          scopes := codeData.params.scopes.getD []
          userId := "demo-user"
          morphikUri := apiBase
          expiresAt := expiresAt } s.tokens
      let codes := mapErase authorizationCode s.codes
      Except.ok
        ({ access_token := freshAccessToken
           token_type := "Bearer"
           expires_in := 3600
           refresh_token := some freshRefreshToken
           scope := codeData.params.scopes.map (String.intercalate " ") },
         { s with codes := codes, tokens := tokens })

/-- Embedding of `MorphikOAuthProvider.exchangeRefreshToken`: throws
unconditionally. -/
def exchangeRefreshToken (_s : MorphikOAuthProvider)
    (_client : OAuthClientInformationFull) (_refreshToken : String)
    (_scopes : Option (List String)) (_resource : Option String) :
    Except String (OAuthTokens × MorphikOAuthProvider) :=
  Except.error "Refresh token exchange not implemented"

/-- Embedding of `MorphikOAuthProvider.verifyAccessToken`: rejects when the
token is absent or `tokenInfo.expiresAt < Date.now()`; otherwise returns
the principal with `expiresAt := Math.floor(expiresAt / 1000)`. -/
def verifyAccessToken (s : MorphikOAuthProvider) (token : String)
    (nowMs : Nat) : Except String AuthInfo :=
  match mapLookup token s.tokens with
  | none => Except.error "Invalid or expired token"
  | some tokenInfo =>
    if tokenInfo.expiresAt < nowMs then
      Except.error "Invalid or expired token"
    else
      Except.ok
        { token := token
          clientId := tokenInfo.clientId
          scopes := tokenInfo.scopes
          expiresAt := tokenInfo.expiresAt / 1000
          userId := tokenInfo.userId
          morphikUri := tokenInfo.morphikUri }

/-! Basic lemmas about the map operations. -/

theorem mapLookup_erase {α : Type} (k k2 : String) (m : List (String × α)) :
    mapLookup k2 (mapErase k m) = if k2 = k then none else mapLookup k2 m := by
  induction m with
  | nil => simp [mapErase, mapLookup]
  | cons p m ih =>
    obtain ⟨k3, v⟩ := p
    by_cases h3 : k3 = k
    · subst h3
      have hd : mapErase k3 ((k3, v) :: m) = mapErase k3 m := by
        simp [mapErase]
      rw [hd, ih]
      by_cases h2 : k2 = k3
      · simp [h2]
      · simp [h2, mapLookup, Ne.symm h2]
    · have hd : mapErase k ((k3, v) :: m) = (k3, v) :: mapErase k m := by
        simp [mapErase, h3]
      rw [hd]
      by_cases h2 : k3 = k2
      · subst h2
        simp [mapLookup, h3]
      · simp [mapLookup, h2, ih]

theorem mapLookup_insert {α : Type} (k k2 : String) (v : α)
    (m : List (String × α)) :
    mapLookup k2 (mapInsert k v m) =
      if k2 = k then some v else mapLookup k2 m := by
  by_cases h : k = k2
  · subst h; simp [mapInsert, mapLookup]
  · simp [mapInsert, mapLookup, h, mapLookup_erase, Ne.symm h]

/-! Concrete fixtures and claim theorems. -/

/-- Client fixture for the PKCE claim. -/
def pkceClient : OAuthClientInformationFull :=
  { client_id := "client-1", client_id_issued_at := none, metadata := [] }

/-- Authorization parameters for the PKCE claim, carrying a recorded
code challenge. -/
def pkceParams : AuthorizationParams :=
  { redirectUri := "https://app/cb", state := some "st1",
    scopes := some ["read"], codeChallenge := some "challengeA" }

/-- Provider state holding one pending authorization whose stored
challenge is `challengeA`. -/
def pkceState : MorphikOAuthProvider :=
  { clients := []
    codes := [("code-1",
      { client := pkceClient, params := pkceParams,
        codeChallenge := some "challengeA" })]
    tokens := [] }

/-- C1: the claim states that redemption with a verifier failing the PKCE
check is rejected with invalid_grant. The code does not enforce this: for
the stored challenge `challengeA` and the mismatching verifier
`verifierB` (direct comparison fails, and no S256 image of any verifier
can equal the 10-character string `challengeA` either, a base64url SHA-256
digest having 43 characters), the exchange nevertheless succeeds and
issues tokens — the PKCE branch of the source is an empty TODO. -/
theorem C1_pkce_not_enforced :
    ("verifierB" ≠ "challengeA") ∧
    (pkceState.codes.map Prod.fst = ["code-1"]) ∧
    exchangeAuthorizationCode pkceState pkceClient "code-1"
        (some "verifierB") "access-1" "refresh-1" 0 "http://localhost:8000" =
      Except.ok
        ({ access_token := "access-1", token_type := "Bearer",
           expires_in := 3600, refresh_token := some "refresh-1",
           scope := some "read" },
         { clients := []
           codes := []
           tokens := [("access-1",
             { clientId := "client-1", scopes := ["read"],
               userId := "demo-user",
               morphikUri := "http://localhost:8000",
               expiresAt := 3600000 })] }) :=
  ⟨by decide, rfl, rfl⟩

/-- Client fixture for the code-expiry claim. -/
def staleClient : OAuthClientInformationFull :=
  { client_id := "client-4", client_id_issued_at := none, metadata := [] }

/-- Authorization parameters for the code-expiry claim. -/
def staleParams : AuthorizationParams :=
  { redirectUri := "https://app/cb", state := none,
    scopes := some ["read", "write"], codeChallenge := some "chal4" }

/-- Provider state holding one pending authorization minted at time 0. -/
def staleState : MorphikOAuthProvider :=
  { clients := []
    codes := [("code-4",
      { client := staleClient, params := staleParams,
        codeChallenge := some "chal4" })]
    tokens := [] }

/-- C4: the claim states that a code whose TTL has elapsed always fails
redemption. The code stores no issue time and no TTL for pending
authorizations and never checks elapsed time: a code minted at time 0 and
redeemed at time 1000000000 ms (over 11 days, far beyond any 60-600 s
TTL) still succeeds and issues tokens. -/
theorem C4_no_code_expiry :
    exchangeAuthorizationCode staleState staleClient "code-4"
        (some "verifier4") "access-4" "refresh-4" 1000000000
        "http://localhost:8000" =
      Except.ok
        ({ access_token := "access-4", token_type := "Bearer",
           expires_in := 3600, refresh_token := some "refresh-4",
           scope := some "read write" },
         { clients := []
           codes := []
           tokens := [("access-4",
             { clientId := "client-4", scopes := ["read", "write"],
               userId := "demo-user",
               morphikUri := "http://localhost:8000",
               expiresAt := 1003600000 })] }) := rfl

/-- Token-store fixture with a single token expiring at 5000 ms. -/
def boundaryState : MorphikOAuthProvider :=
  { clients := [], codes := []
    tokens := [("token-3",
      { clientId := "client-3", scopes := ["read"], userId := "demo-user",
        morphikUri := "http://localhost:8000", expiresAt := 5000 })] }

/-- C3 counterexample: the claim states verification fails whenever
`now >= expires_at`. At the boundary `now = expires_at = 5000` the code
returns a principal (the source rejects only `expiresAt < now`), so the
claim as stated is false. -/
theorem C3_boundary_counterexample :
    (5000 ≤ 5000) ∧
    verifyAccessToken boundaryState "token-3" 5000 =
      Except.ok
        { token := "token-3", clientId := "client-3", scopes := ["read"],
          expiresAt := 5, userId := "demo-user",
          morphikUri := "http://localhost:8000" } ∧
    verifyAccessToken boundaryState "token-3" 5000 ≠
      Except.error "Invalid or expired token" :=
  ⟨le_refl 5000, rfl, fun h => Except.noConfusion h⟩

/-- C3 (amended): `verifyAccessToken` returns a principal exactly when the
token exists in the store and `now <= expires_at`, and fails with the
invalid-token error exactly otherwise (the source rejects only strictly
later times, so a lookup at `now = expires_at` still succeeds). -/
theorem C3_token_valid_iff (s : MorphikOAuthProvider) (t : String)
    (nowMs : Nat) :
    ((∃ a, verifyAccessToken s t nowMs = Except.ok a) ↔
      (∃ ti, mapLookup t s.tokens = some ti ∧ nowMs ≤ ti.expiresAt)) ∧
    ((verifyAccessToken s t nowMs = Except.error "Invalid or expired token") ↔
      ¬ ∃ ti, mapLookup t s.tokens = some ti ∧ nowMs ≤ ti.expiresAt) := by
  unfold verifyAccessToken
  cases h : mapLookup t s.tokens with
  | none => simp
  | some ti =>
    by_cases hlt : ti.expiresAt < nowMs
    · simp only [hlt, if_pos]
      constructor
      · simp
        omega
      · simp
        omega
    · simp only [hlt, if_neg, not_false_eq_true]
      constructor
      · simp
        omega
      · simp
        omega

/-- C9: `exchangeRefreshToken` throws unconditionally for every input and
never issues a token pair. -/
theorem C9_refresh_always_fails (s : MorphikOAuthProvider)
    (client : OAuthClientInformationFull) (refreshToken : String)
    (scopes : Option (List String)) (resource : Option String) :
    exchangeRefreshToken s client refreshToken scopes resource =
      Except.error "Refresh token exchange not implemented" := rfl

/-- C5: redemption of a stored code by a client whose id differs from the
one recorded in the pending authorization fails with the invalid-grant
error, issuing nothing. -/
theorem C5_client_binding (s : MorphikOAuthProvider)
    (client : OAuthClientInformationFull) (code : String) (cd : CodeData)
    (codeVerifier : Option String) (a r : String) (nowMs : Nat)
    (apiBase : String)
    (hcd : mapLookup code s.codes = some cd)
    (hne : cd.client.client_id ≠ client.client_id) :
    exchangeAuthorizationCode s client code codeVerifier a r nowMs apiBase =
      Except.error "Invalid authorization code" := by
  unfold exchangeAuthorizationCode
  rw [hcd]
  simp [hne]

/-- Client that requested the authorization in the client-binding fixture. -/
def bindClient : OAuthClientInformationFull :=
  { client_id := "client-5", client_id_issued_at := none, metadata := [] }

/-- A different client attempting redemption in the client-binding
fixture. -/
def bindOther : OAuthClientInformationFull :=
  { client_id := "intruder-5", client_id_issued_at := none, metadata := [] }

/-- Authorization parameters for the client-binding fixture. -/
def bindParams : AuthorizationParams :=
  { redirectUri := "https://app/cb", state := none, scopes := none,
    codeChallenge := none }

/-- Provider state for the client-binding fixture. -/
def bindState : MorphikOAuthProvider :=
  { clients := []
    codes := [("code-5",
      { client := bindClient, params := bindParams, codeChallenge := none })]
    tokens := [] }

/-- Witness for C5: the concrete client `intruder-5` cannot redeem the code
minted for `client-5`. -/
theorem C5_client_binding_witness :
    exchangeAuthorizationCode bindState bindOther "code-5" none "a5" "r5" 0
        "http://localhost:8000" =
      Except.error "Invalid authorization code" :=
  C5_client_binding bindState bindOther "code-5"
    { client := bindClient, params := bindParams, codeChallenge := none }
    none "a5" "r5" 0 "http://localhost:8000" rfl (by decide)

/-- C2: once a code has been redeemed successfully, the pending
authorization is deleted, so any later exchange of the same code — by any
client, with any verifier, tokens or time — fails with the invalid-grant
error. -/
theorem C2_code_single_use (s s2 : MorphikOAuthProvider)
    (client client2 : OAuthClientInformationFull) (code : String)
    (v v2 : Option String) (a r a2 r2 : String) (nowMs nowMs2 : Nat)
    (base base2 : String) (toks : OAuthTokens)
    (h : exchangeAuthorizationCode s client code v a r nowMs base =
      Except.ok (toks, s2)) :
    exchangeAuthorizationCode s2 client2 code v2 a2 r2 nowMs2 base2 =
      Except.error "Invalid authorization code" := by
  unfold exchangeAuthorizationCode at h
  split at h
  · exact absurd h (by simp)
  · split at h
    · exact absurd h (by simp)
    · simp only [Except.ok.injEq, Prod.mk.injEq] at h
      obtain ⟨-, hs2⟩ := h
      have hnone : mapLookup code s2.codes = none := by
        rw [← hs2]
        simp [mapLookup_erase]
      unfold exchangeAuthorizationCode
      rw [hnone]

/-- Client fixture for the single-use claim. -/
def reuseClient : OAuthClientInformationFull :=
  { client_id := "client-2", client_id_issued_at := none, metadata := [] }

/-- Authorization parameters for the single-use claim. -/
def reuseParams : AuthorizationParams :=
  { redirectUri := "https://app/cb", state := none, scopes := none,
    codeChallenge := none }

/-- Provider state holding one pending authorization for `code-2`. -/
def reuseState : MorphikOAuthProvider :=
  { clients := []
    codes := [("code-2",
      { client := reuseClient, params := reuseParams, codeChallenge := none })]
    tokens := [] }

/-- Token response of the first, successful redemption of `code-2`. -/
def reuseToks : OAuthTokens :=
  { access_token := "a2", token_type := "Bearer", expires_in := 3600,
    refresh_token := some "r2", scope := none }

/-- Provider state after the first, successful redemption of `code-2`. -/
def reuseRedeemedState : MorphikOAuthProvider :=
  { clients := []
    codes := []
    tokens := [("a2",
      { clientId := "client-2", scopes := [], userId := "demo-user",
        morphikUri := "http://localhost:8000", expiresAt := 3600000 })] }

/-- Witness for C2: after `code-2` is redeemed once, a second redemption of
the same code fails. -/
theorem C2_code_single_use_witness :
    exchangeAuthorizationCode reuseRedeemedState reuseClient "code-2" none
        "a3" "r3" 9 "http://localhost:8000" =
      Except.error "Invalid authorization code" :=
  C2_code_single_use reuseState reuseRedeemedState reuseClient reuseClient
    "code-2" (some "v") none "a2" "r2" "a3" "r3" 0 9
    "http://localhost:8000" "http://localhost:8000" reuseToks rfl

/-- C6: a successful exchange removes the pending authorization, stores an
access-token record with the granted scopes and
`expiresAt = now + 3600 * 1000` ms keyed by the fresh access token, and
returns the pair with token type Bearer, `expires_in = 3600` and the
originally requested scopes as the scope string. -/
theorem C6_exchange_success (s : MorphikOAuthProvider)
    (client : OAuthClientInformationFull) (code : String) (cd : CodeData)
    (codeVerifier : Option String) (a r : String) (nowMs : Nat)
    (apiBase : String)
    (hcd : mapLookup code s.codes = some cd)
    (hcl : cd.client.client_id = client.client_id) :
    exchangeAuthorizationCode s client code codeVerifier a r nowMs apiBase =
      Except.ok
        ({ access_token := a, token_type := "Bearer", expires_in := 3600,
           refresh_token := some r,
           scope := cd.params.scopes.map (String.intercalate " ") },
         { clients := s.clients
           codes := mapErase code s.codes
           tokens := mapInsert a
             { clientId := client.client_id
               scopes := cd.params.scopes.getD []
               userId := "demo-user"
               morphikUri := apiBase
               expiresAt := nowMs + 3600 * 1000 } s.tokens }) := by
  unfold exchangeAuthorizationCode
  rw [hcd]
  simp [hcl]

/-- Client fixture for the successful-exchange claim. -/
def grantClient : OAuthClientInformationFull :=
  { client_id := "client-6", client_id_issued_at := some 1, metadata := [] }

/-- Authorization parameters for the successful-exchange claim, requesting
two scopes. -/
def grantParams : AuthorizationParams :=
  { redirectUri := "https://app/cb", state := some "st6",
    scopes := some ["read", "write"], codeChallenge := some "chal6" }

/-- Provider state holding one pending authorization for `code-6`. -/
def grantState : MorphikOAuthProvider :=
  { clients := []
    codes := [("code-6",
      { client := grantClient, params := grantParams,
        codeChallenge := some "chal6" })]
    tokens := [] }

/-- Witness for C6: the concrete redemption of `code-6` at time 100 ms
returns the Bearer pair and stores the access-token record expiring at
3600100 ms. -/
theorem C6_exchange_success_witness :
    exchangeAuthorizationCode grantState grantClient "code-6"
        (some "verifier1") "access-6" "refresh-6" 100 "https://api6" =
      Except.ok
        ({ access_token := "access-6", token_type := "Bearer",
           expires_in := 3600, refresh_token := some "refresh-6",
           scope := some "read write" },
         { clients := []
           codes := []
           tokens := [("access-6",
             { clientId := "client-6", scopes := ["read", "write"],
               userId := "demo-user", morphikUri := "https://api6",
               expiresAt := 3600100 })] }) :=
  C6_exchange_success grantState grantClient "code-6"
    { client := grantClient, params := grantParams,
      codeChallenge := some "chal6" }
    (some "verifier1") "access-6" "refresh-6" 100 "https://api6" rfl rfl

/-- C7: `authorize` stores the fresh code as a pending authorization
recording the PKCE challenge, changes neither the token store nor the
client registry (no token is issued), leaves every other pending
authorization untouched, and returns a redirect to the upstream
authorization URL carrying the client_id, redirect_uri, state,
scope and code_challenge, the method S256, and the minted code as
`mcp_code`. -/
theorem C7_authorize_redirect (s : MorphikOAuthProvider)
    (client : OAuthClientInformationFull) (params : AuthorizationParams)
    (freshCode apiBase st ch : String) (scs : List String)
    (hst : params.state = some st) (hsc : params.scopes = some scs)
    (hch : params.codeChallenge = some ch)
    (hfresh : mapLookup freshCode s.codes = none) :
    (authorize s client params freshCode apiBase).1 =
      { base := apiBase
        path := "/oauth/authorize"
        searchParams :=
          [("client_id", client.client_id),
           ("redirect_uri", params.redirectUri),
           ("state", st),
           ("scope", String.intercalate " " scs),
           ("code_challenge", ch),
           ("code_challenge_method", "S256"),
           ("mcp_code", freshCode)] } ∧
    mapLookup freshCode (authorize s client params freshCode apiBase).2.codes =
      some { client := client, params := params, codeChallenge := some ch } ∧
    mapLookup freshCode s.codes = none ∧
    (∀ c2, c2 ≠ freshCode →
      mapLookup c2 (authorize s client params freshCode apiBase).2.codes =
        mapLookup c2 s.codes) ∧
    (authorize s client params freshCode apiBase).2.tokens = s.tokens ∧
    (authorize s client params freshCode apiBase).2.clients = s.clients := by
  refine ⟨?_, ?_, hfresh, ?_, rfl, rfl⟩
  · simp [authorize, hst, hsc, hch]
  · simp [authorize, mapLookup_insert, hch]
  · intro c2 hc2
    simp [authorize, mapLookup_insert, hc2]

/-- Client fixture for the authorize claim. -/
def auth7Client : OAuthClientInformationFull :=
  { client_id := "client-7", client_id_issued_at := none, metadata := [] }

/-- Authorization parameters for the authorize claim. -/
def auth7Params : AuthorizationParams :=
  { redirectUri := "https://app7/cb", state := some "st7",
    scopes := some ["read", "admin"], codeChallenge := some "chal7" }

/-- Empty provider state for the authorize claim. -/
def auth7State : MorphikOAuthProvider :=
  { clients := [], codes := [], tokens := [] }

/-- Witness for C7: the concrete authorize call for `client-7` builds the
expected redirect URL, stores the pending authorization for `code-7`, and
issues no token. -/
theorem C7_authorize_redirect_witness :
    (authorize auth7State auth7Client auth7Params "code-7" "https://api7").1 =
      { base := "https://api7"
        path := "/oauth/authorize"
        searchParams :=
          [("client_id", "client-7"),
           ("redirect_uri", "https://app7/cb"),
           ("state", "st7"),
           ("scope", "read admin"),
           ("code_challenge", "chal7"),
           ("code_challenge_method", "S256"),
           ("mcp_code", "code-7")] } ∧
    mapLookup "code-7"
        (authorize auth7State auth7Client auth7Params "code-7"
          "https://api7").2.codes =
      some { client := auth7Client, params := auth7Params,
             codeChallenge := some "chal7" } ∧
    (authorize auth7State auth7Client auth7Params "code-7"
        "https://api7").2.tokens = auth7State.tokens := by
  have h := C7_authorize_redirect auth7State auth7Client auth7Params
    "code-7" "https://api7" "st7" "chal7" ["read", "admin"]
    rfl rfl rfl rfl
  exact ⟨h.1, h.2.1, h.2.2.2.2.1⟩

/-- C8: `registerClient` is total, returns the metadata completed with the
freshly generated client id (not previously registered) and a populated
`client_id_issued_at`, a subsequent `getClient` on that id returns exactly
the stored record, and no other registry entry is affected
(`getClient` itself is a pure lookup). -/
theorem C8_register_then_get (s : MorphikOAuthProvider)
    (md : OAuthClientInformationFull) (freshId : String) (nowSec : Nat)
    (hfresh : getClient s freshId = none) :
    (registerClient s md freshId nowSec).1 =
      { md with client_id := freshId, client_id_issued_at := some nowSec } ∧
    getClient s (registerClient s md freshId nowSec).1.client_id = none ∧
    getClient (registerClient s md freshId nowSec).2
        (registerClient s md freshId nowSec).1.client_id =
      some (registerClient s md freshId nowSec).1 ∧
    (∀ k, k ≠ freshId →
      getClient (registerClient s md freshId nowSec).2 k = getClient s k) := by
  refine ⟨rfl, hfresh, ?_, ?_⟩
  · simp [registerClient, getClient, mapLookup_insert]
  · intro k hk
    simp [registerClient, getClient, mapLookup_insert, hk]

/-- Metadata fixture submitted for registration. -/
def regMetadata : OAuthClientInformationFull :=
  { client_id := "", client_id_issued_at := none,
    metadata := [("client_name", "My App"),
                 ("redirect_uris", "https://app8/cb")] }

/-- Empty provider state for the registration claim. -/
def regState : MorphikOAuthProvider :=
  { clients := [], codes := [], tokens := [] }

/-- Witness for C8: registering the concrete metadata under the fresh id
`uuid-8` at time 1700000000 s stores and returns the completed record, and
`getClient` finds exactly it. -/
theorem C8_register_then_get_witness :
    (registerClient regState regMetadata "uuid-8" 1700000000).1 =
      { client_id := "uuid-8", client_id_issued_at := some 1700000000,
        metadata := [("client_name", "My App"),
                     ("redirect_uris", "https://app8/cb")] } ∧
    getClient (registerClient regState regMetadata "uuid-8" 1700000000).2
        "uuid-8" =
      some (registerClient regState regMetadata "uuid-8" 1700000000).1 := by
  have h := C8_register_then_get regState regMetadata "uuid-8" 1700000000 rfl
  exact ⟨h.1, h.2.2.1⟩

/-- C10: the refresh token returned by a successful exchange is never
stored: only the access token is inserted into the token store, so
verifying the returned refresh token as an access token fails at every
time (the refresh token being a fresh UUID, it differs from the fresh
access token and from every stored token). -/
theorem C10_refresh_token_never_stored (s s2 : MorphikOAuthProvider)
    (client : OAuthClientInformationFull) (code : String) (v : Option String)
    (a r : String) (nowMs nowMs2 : Nat) (apiBase : String)
    (toks : OAuthTokens)
    (h : exchangeAuthorizationCode s client code v a r nowMs apiBase =
      Except.ok (toks, s2))
    (hra : r ≠ a) (hfresh : mapLookup r s.tokens = none) :
    toks.refresh_token = some r ∧
    verifyAccessToken s2 r nowMs2 = Except.error "Invalid or expired token" := by
  unfold exchangeAuthorizationCode at h
  split at h
  · exact absurd h (by simp)
  · split at h
    · exact absurd h (by simp)
    · simp only [Except.ok.injEq, Prod.mk.injEq] at h
      obtain ⟨htoks, hs2⟩ := h
      constructor
      · rw [← htoks]
      · have hnone : mapLookup r s2.tokens = none := by
          rw [← hs2]
          simp [mapLookup_insert, hra, hfresh]
        unfold verifyAccessToken
        rw [hnone]

/-- Client fixture for the refresh-token claim. -/
def rotClient : OAuthClientInformationFull :=
  { client_id := "client-10", client_id_issued_at := none, metadata := [] }

/-- Authorization parameters for the refresh-token claim. -/
def rotParams : AuthorizationParams :=
  { redirectUri := "https://app/cb", state := none, scopes := some ["read"],
    codeChallenge := some "chal10" }

/-- Provider state holding one pending authorization for `code-10`. -/
def rotState : MorphikOAuthProvider :=
  { clients := []
    codes := [("code-10",
      { client := rotClient, params := rotParams,
        codeChallenge := some "chal10" })]
    tokens := [] }

/-- Token response of the successful redemption of `code-10`. -/
def rotToks : OAuthTokens :=
  { access_token := "access-10", token_type := "Bearer", expires_in := 3600,
    refresh_token := some "refresh-10", scope := some "read" }

/-- Provider state after the successful redemption of `code-10`. -/
def rotRedeemedState : MorphikOAuthProvider :=
  { clients := []
    codes := []
    tokens := [("access-10",
      { clientId := "client-10", scopes := ["read"], userId := "demo-user",
        morphikUri := "http://localhost:8000", expiresAt := 3600000 })] }

/-- Witness for C10: after the concrete redemption of `code-10`, the
returned refresh token `refresh-10` is absent from the token store and
fails verification. -/
theorem C10_refresh_token_never_stored_witness :
    rotToks.refresh_token = some "refresh-10" ∧
    verifyAccessToken rotRedeemedState "refresh-10" 0 =
      Except.error "Invalid or expired token" :=
  C10_refresh_token_never_stored rotState rotRedeemedState rotClient
    "code-10" (some "v10") "access-10" "refresh-10" 0 0
    "http://localhost:8000" rotToks rfl (by decide) rfl
